import Mathlib

/-!
A verification development for the Kraken REST client mixin
(`cryptofeed/exchanges/mixins/kraken_rest.py`).

The Python source is shallowly embedded: each method that a claim touches is
translated into an executable Lean definition over explicit inputs (parsed
JSON payloads become structures or association lists, `Decimal` and `float`
values become `ℚ`, the wall clock becomes an explicit argument, HTTP traffic
becomes a `server` function from request cursor to response).  Cryptographic
primitives (SHA-256, HMAC-SHA-512, base64) are abstracted as parameters, so
statements about the signing pipeline are about how the source composes them.
-/

/-- Python `int(q)` on a real value: truncation toward zero.  `ℚ` is kept
reduced, and `Int.tdiv` truncates toward zero, so `tdiv q.num q.den` is
exactly Python `int(q)`. -/
def truncInt (q : ℚ) : ℤ := Int.tdiv q.num (q.den : ℤ)

/-- On nonnegative rationals, Python truncation agrees with the floor. -/
theorem truncInt_eq_floor (q : ℚ) (h : 0 ≤ q) : truncInt q = ⌊q⌋ := by
  rw [truncInt, Rat.floor_def,
    Int.tdiv_eq_ediv (Rat.num_nonneg.mpr h) (by positivity)]

/-! ## SymbolCodec: `_convert_private_sym` (kraken_rest.py lines 338-354)

The `try`/`except` wrapper of the source is dead on this pure fragment:
`len` and slicing of a Python `str` never raise, so the logged-fallback branch
is unreachable and the function is total. -/

/-- `_convert_private_sym` from the source: an 8- or 9-character code maps to
`sym[1:4] + sym[5:]`, a 4-character code to `sym[1:]`, anything else is
returned unchanged. -/
def _convert_private_sym (sym : String) : String :=
  if sym.length = 8 ∨ sym.length = 9 then
    ((sym.data.drop 1).take 3).asString ++ (sym.data.drop 5).asString
  else if sym.length = 4 then
    (sym.data.drop 1).asString
  else
    sym

/-- C1: the private symbol-code transform keeps `chars[1:4] ++ chars[5:]` for
an 8- or 9-character input, drops the first character of a 4-character input,
and returns any other length unchanged (no exception path exists); in
particular `"XETHZGBP" ↦ "ETHGBP"`, `"XETH" ↦ "ETH"`, `"ZGBP" ↦ "GBP"`, and
every 5-character input is fixed. -/
theorem convert_private_sym_spec (sym : String) :
    ((sym.length = 8 ∨ sym.length = 9) →
      _convert_private_sym sym
        = ((sym.data.drop 1).take 3).asString ++ (sym.data.drop 5).asString)
    ∧ (sym.length = 4 → _convert_private_sym sym = (sym.data.drop 1).asString)
    ∧ (sym.length ≠ 8 → sym.length ≠ 9 → sym.length ≠ 4 →
        _convert_private_sym sym = sym)
    ∧ _convert_private_sym "XETHZGBP" = "ETHGBP"
    ∧ _convert_private_sym "XETH" = "ETH"
    ∧ _convert_private_sym "ZGBP" = "GBP"
    ∧ (sym.length = 5 → _convert_private_sym sym = sym) := by
  refine ⟨?_, ?_, ?_, by decide, by decide, by decide, ?_⟩
  · intro h
    simp only [_convert_private_sym, if_pos h]
  · intro h
    have hne : ¬ (sym.length = 8 ∨ sym.length = 9) := by omega
    simp only [_convert_private_sym, if_neg hne, if_pos h]
  · intro h8 h9 h4
    have hne : ¬ (sym.length = 8 ∨ sym.length = 9) := by
      rintro (h | h) <;> contradiction
    simp only [_convert_private_sym, if_neg hne, if_neg h4]
  · intro h5
    have hne : ¬ (sym.length = 8 ∨ sym.length = 9) := by omega
    have h4 : sym.length ≠ 4 := by omega
    simp only [_convert_private_sym, if_neg hne, if_neg h4]

/-- Witness for C1 at concrete inputs: `"XXBTZUSD"` (8 chars) and `"ABCDE"`
(5 chars). -/
theorem convert_private_sym_spec_witness :
    _convert_private_sym "XXBTZUSD" = "XBTUSD"
    ∧ _convert_private_sym "ABCDE" = "ABCDE" := by
  constructor
  · have h := (convert_private_sym_spec "XXBTZUSD").1 (Or.inl (by decide))
    exact h.trans (by decide)
  · exact (convert_private_sym_spec "ABCDE").2.2.2.2.2.2 (by decide)

/-! ## ResponseNormalizer: `_order_status` (kraken_rest.py lines 38-57) -/

inductive OrderSide
  | BUY
  | SELL
deriving DecidableEq

inductive OrdType
  | LIMIT
  | MARKET
deriving DecidableEq

inductive OrderState
  | CANCELLED
  | OPEN
  | FILLED
deriving DecidableEq

/-- The upstream open/closed-order payload fields that `_order_status` reads:
`status`, `descr.pair`, `descr.type`, `descr.ordertype`, `descr.price`,
`vol`, `vol_exec`, `opentm`.  `Decimal`-parsed string fields are `ℚ`. -/
structure RawOrder where
  status : String
  descr_pair : String
  descr_type : String
  descr_ordertype : String
  descr_price : ℚ
  vol : ℚ
  vol_exec : ℚ
  opentm : ℚ
deriving DecidableEq

/-- The value of the `status` local after the three sequential unguarded `if`
statements of `_order_status` (lines 39-44).  The local starts unassigned;
`none` models the `UnboundLocalError` that line 56 raises when no branch
fired. -/
def _order_status_state (s : String) : Option OrderState :=
  let st : Option OrderState := none
  let st := if s = "canceled" then some .CANCELLED else st
  let st := if s = "open" then some .OPEN else st
  if s = "closed" then some .FILLED else st

/-- The normalized order record built at lines 46-57. -/
structure OrderStatusRec where
  order_id : String
  symbol : String
  side : OrderSide
  order_type : OrdType
  price : ℚ
  total : ℚ
  executed : ℚ
  pending : ℚ
  timestamp : ℚ
  order_status : OrderState
deriving DecidableEq

/-- `_order_status`: `e2std` abstracts the inherited
`exchange_symbol_to_std_symbol`.  `none` is the raised `UnboundLocalError` on
an unrecognized status string. -/
def _order_status (e2std : String → String) (order_id : String) (o : RawOrder) :
    Option OrderStatusRec :=
  (_order_status_state o.status).map fun st =>
    { order_id := order_id
      symbol := e2std o.descr_pair
      side := if o.descr_type = "sell" then .SELL else .BUY
      order_type := if o.descr_ordertype = "limit" then .LIMIT else .MARKET
      price := o.descr_price
      total := o.vol
      executed := o.vol_exec
      pending := o.vol - o.vol_exec
      timestamp := o.opentm
      order_status := st }

/-- An upstream order whose executed volume exceeds its total volume. -/
def overfilledOrder : RawOrder :=
  { status := "open", descr_pair := "XBTUSD", descr_type := "buy",
    descr_ordertype := "limit", descr_price := 30000, vol := 1, vol_exec := 2,
    opentm := 0 }

/-- A well-formed open order: total `3/2`, nothing executed. -/
def openLimitOrder : RawOrder :=
  { status := "open", descr_pair := "XBT-USD", descr_type := "buy",
    descr_ordertype := "limit", descr_price := 30000, vol := 3/2,
    vol_exec := 0, opentm := 0 }

/-- The record `_order_status` produces for `openLimitOrder`. -/
def openLimitRec : OrderStatusRec :=
  { order_id := "OB", symbol := "XBT-USD", side := .BUY, order_type := .LIMIT,
    price := 30000, total := 3/2, executed := 0, pending := 3/2, timestamp := 0,
    order_status := .OPEN }

/-- C5 counterexample: on an upstream order with `vol = 1` and `vol_exec = 2`
the normalization yields `pending = -1 < 0`; the code never validates
`executed ≤ total`, so `pending ≥ 0` fails as a universal statement. -/
theorem order_status_pending_negative :
    (_order_status id "OA" overfilledOrder).map OrderStatusRec.pending
      = some (-1)
    ∧ ¬ (0 : ℚ) ≤ -1 := by
  constructor
  · simp [_order_status, _order_status_state, overfilledOrder]
    norm_num
  · norm_num

/-- C5 (amended): every record `_order_status` produces has
`pending = total - executed`; `pending ≥ 0` holds whenever the upstream order
satisfies `vol_exec ≤ vol` (an input contract the source does not check). -/
theorem order_status_pending (e2std : String → String) (oid : String)
    (o : RawOrder) (r : OrderStatusRec)
    (h : _order_status e2std oid o = some r) :
    r.pending = r.total - r.executed ∧ (o.vol_exec ≤ o.vol → 0 ≤ r.pending) := by
  cases hst : _order_status_state o.status with
  | none =>
      rw [_order_status, hst] at h
      cases h
  | some st =>
      rw [_order_status, hst, Option.map_some'] at h
      cases h
      exact ⟨rfl, fun hle => sub_nonneg.mpr hle⟩

/-- Witness for C5 at `openLimitOrder`. -/
theorem order_status_pending_witness :
    openLimitRec.pending = openLimitRec.total - openLimitRec.executed
    ∧ 0 ≤ openLimitRec.pending :=
  ⟨(order_status_pending id "OB" openLimitOrder openLimitRec
      (by simp [_order_status, _order_status_state, openLimitOrder,
        openLimitRec])).1,
   (order_status_pending id "OB" openLimitOrder openLimitRec
      (by simp [_order_status, _order_status_state, openLimitOrder,
        openLimitRec])).2
     (by norm_num [openLimitOrder])⟩

/-- C6: the status mapping sends `"canceled"` to `CANCELLED`, `"open"` to
`OPEN` and `"closed"` to `FILLED`; on any other upstream status string
`_order_status` produces no record — the never-assigned `status` local makes
record construction raise (`UnboundLocalError`, modelled `none`) rather than
silently yielding a status. -/
theorem order_status_string_mapping (e2std : String → String) (oid : String)
    (o : RawOrder) :
    (o.status = "canceled" →
      (_order_status e2std oid o).map OrderStatusRec.order_status
        = some .CANCELLED)
    ∧ (o.status = "open" →
      (_order_status e2std oid o).map OrderStatusRec.order_status = some .OPEN)
    ∧ (o.status = "closed" →
      (_order_status e2std oid o).map OrderStatusRec.order_status
        = some .FILLED)
    ∧ (o.status ≠ "canceled" → o.status ≠ "open" → o.status ≠ "closed" →
      _order_status e2std oid o = none) := by
  refine ⟨fun h => ?_, fun h => ?_, fun h => ?_, fun h1 h2 h3 => ?_⟩
  · simp [_order_status, _order_status_state, h]
  · simp [_order_status, _order_status_state, h]
  · simp [_order_status, _order_status_state, h]
  · simp [_order_status, _order_status_state, h1, h2, h3]

/-- A minimal upstream order with a caller-chosen status string. -/
def orderWithStatus (s : String) : RawOrder :=
  { status := s, descr_pair := "XETHZUSD", descr_type := "sell",
    descr_ordertype := "market", descr_price := 0, vol := 1, vol_exec := 0,
    opentm := 0 }

/-- Witness for C6: each branch of the mapping at a concrete order. -/
theorem order_status_string_mapping_witness :
    (_order_status id "O1" (orderWithStatus "canceled")).map
      OrderStatusRec.order_status = some .CANCELLED
    ∧ (_order_status id "O2" (orderWithStatus "open")).map
      OrderStatusRec.order_status = some .OPEN
    ∧ (_order_status id "O3" (orderWithStatus "closed")).map
      OrderStatusRec.order_status = some .FILLED
    ∧ _order_status id "O4" (orderWithStatus "expired") = none :=
  ⟨(order_status_string_mapping id "O1" (orderWithStatus "canceled")).1 rfl,
   (order_status_string_mapping id "O2" (orderWithStatus "open")).2.1 rfl,
   (order_status_string_mapping id "O3" (orderWithStatus "closed")).2.2.1 rfl,
   (order_status_string_mapping id "O4" (orderWithStatus "expired")).2.2.2
     (by decide) (by decide) (by decide)⟩

/-! ## AuthSigner: `_post_private` (kraken_rest.py lines 70-97)

The cryptographic primitives and the URL-form encoder are abstracted as
parameters: statements below are about how `_post_private` composes them.
Byte strings (digests, decoded keys, encoded text) are `List ℕ`. -/

structure CryptoPrims where
  sha256 : List ℕ → List ℕ
  hmacSHA512 : (key : List ℕ) → (message : List ℕ) → List ℕ
  b64decode : String → List ℕ
  b64encode : List ℕ → String
  urlencode : List (String × String) → String
  utf8 : String → List ℕ

/-- The nonce of `_post_private` line 75: `int(time.time() * 1000)`, for a
clock reading `t` in seconds. -/
def krakenNonce (t : ℚ) : ℤ := truncInt (t * 1000)

/-- The payload after line 75 runs `payload['nonce'] = ...`: `'nonce'` is a
fresh key, so dict insertion order appends it at the end. -/
def payloadWithNonce (payload : List (String × String)) (nonce : ℤ) :
    List (String × String) :=
  payload ++ [("nonce", toString nonce)]

/-- The `API-Sign` header value computed by lines 75-91 of `_post_private`:
urlpath is `'/0' + command`, `postdata` the form-encoded payload (nonce
included), `encoded = (str(nonce) + postdata).encode('utf8')`,
`message = urlpath.encode() + sha256(encoded).digest()`, and the header is
`b64encode(hmac_sha512(b64decode(secret), message))`. -/
def post_private_sign (P : CryptoPrims) (key_secret command : String)
    (payload : List (String × String)) (t : ℚ) : String :=
  let nonce := krakenNonce t
  let payload := payloadWithNonce payload nonce
  let urlpath := "/0" ++ command
  let postdata := P.urlencode payload
  let encoded := P.utf8 (toString nonce ++ postdata)
  let message := P.utf8 urlpath ++ P.sha256 encoded
  let signature := P.hmacSHA512 (P.b64decode key_secret) message
  P.b64encode signature

/-- The outbound request assembled by `_post_private` (lines 89-94): the body
is the nonce-carrying payload and the `API-Sign` header is
`post_private_sign`. -/
structure PrivateRequest where
  url : String
  body : List (String × String)
  api_key : String
  api_sign : String
deriving DecidableEq

/-- `_post_private`, up to the HTTP send: what the method transmits. -/
def _post_private (P : CryptoPrims) (api key_id key_secret command : String)
    (payload : List (String × String)) (t : ℚ) : PrivateRequest :=
  { url := api ++ command
    body := payloadWithNonce payload (krakenNonce t)
    api_key := key_id
    api_sign := post_private_sign P key_secret command payload t }

/-- The §4.2 signing contract in the specification's own words:
`base64Encode(HMAC-SHA512(base64Decode(secretKey),
utf8(urlPath) || SHA256(utf8(str(nonce) + urlEncodedPayload))))`.  Stated
separately from the source-derived `post_private_sign` so the two can be
compared. -/
def signPerSpec (P : CryptoPrims) (secretKeyBase64 urlPath : String)
    (urlEncodedPayload : String) (nonce : ℤ) : String :=
  P.b64encode (P.hmacSHA512 (P.b64decode secretKeyBase64)
    (P.utf8 urlPath ++ P.sha256 (P.utf8 (toString nonce ++ urlEncodedPayload))))

/-- C7: for every private request, the nonce is the clock in integer
milliseconds and is injected into the transmitted payload, and the
transmitted `API-Sign` header equals the spec's signature —
HMAC-SHA512 under the base64-decoded secret of
`utf8('/0' + command) || SHA256(utf8(str(nonce) + urlencode(payload)))`,
base64-encoded, where the encoded payload is exactly the transmitted body. -/
theorem post_private_matches_spec (P : CryptoPrims)
    (api key_id key_secret command : String)
    (payload : List (String × String)) (t : ℚ) :
    (_post_private P api key_id key_secret command payload t).body
      = payload ++ [("nonce", toString (truncInt (t * 1000)))]
    ∧ (_post_private P api key_id key_secret command payload t).api_sign
      = signPerSpec P key_secret ("/0" ++ command)
          (P.urlencode
            ((_post_private P api key_id key_secret command payload t).body))
          (truncInt (t * 1000)) :=
  ⟨rfl, rfl⟩

/-- C8: two signing calls whose clock readings fall in the same millisecond —
here `1000.0001s` and `1000.0002s` — produce the same nonce `1000000`, so the
produced nonces are not strictly increasing even though the second call is
strictly later. -/
theorem nonce_repeats_within_millisecond :
    (10000001/10000 : ℚ) < 10000002/10000
    ∧ krakenNonce (10000001/10000) = 1000000
    ∧ krakenNonce (10000002/10000) = 1000000
    ∧ ¬ krakenNonce (10000001/10000) < krakenNonce (10000002/10000) := by
  have h1 : krakenNonce (10000001/10000) = 1000000 := by
    rw [krakenNonce, truncInt_eq_floor _ (by norm_num),
      show ((10000001/10000 : ℚ) * 1000) = 10000001/10 by norm_num]
    norm_num
  have h2 : krakenNonce (10000002/10000) = 1000000 := by
    rw [krakenNonce, truncInt_eq_floor _ (by norm_num),
      show ((10000002/10000 : ℚ) * 1000) = 10000001/10 + 1/10 by norm_num]
    norm_num
  refine ⟨by norm_num, h1, h2, ?_⟩
  rw [h1, h2]
  omega

/-! ## RetryingHttpClient / HistoricalTradeFetcher:
`_historical_trades` and the `start`-driven branch of `trades_sync`
(kraken_rest.py lines 127-176)

The HTTP exchange is abstracted as a `server` function from the `since`
cursor to the response; one response carries the HTTP status code and the
parsed JSON body parts the loop reads (the `error` list, the trade list under
the first `result` key, and the `result.last` pagination id). -/

/-- One raw trade entry `[price, volume, time, buy/sell, ...]` (the source's
example: `['976.00000', '1.34379010', 1483270225.7744, 's', 'l', '']`). -/
structure RawTrade where
  price : ℚ
  volume : ℚ
  time : ℚ
  side : String
deriving DecidableEq

/-- An HTTP response in the `_historical_trades` loop. -/
structure PageResponse where
  status_code : ℕ
  error : List String
  trades : List RawTrade
  last : ℤ
deriving DecidableEq

/-- What the loop body does with one response before any page is yielded. -/
inductive TradesAction
  | retryAfter (sleepSeconds : ℚ)
  | fatalHttpError
  | fatalEnvelope (errs : List String)
  | successAfter (pacingDelay : ℚ)
deriving DecidableEq

/-- Modelled from the spec: `RestExchange._handle_error`, called at line 163
for a non-gateway non-200 status, is repository code outside the excerpted
source; per the spec such a response is "fatal; surface as an error
immediately (no retry)". -/
def handle_error_action : TradesAction := .fatalHttpError

/-- The response classification of the loop body (lines 158-173), in source
order: gateway statuses 504/520 sleep 60s and retry; any other non-200 status
is fatal via `_handle_error`; an exact `['EAPI:Rate limit exceeded']` error
list sleeps 5s and retries; any other non-empty error list raises with the
error list; otherwise the page is a success, paced by
`time.sleep(1 / self.request_limit)` (line 165, taken on every 200
response before the body is parsed). -/
def classify_trades_response (request_limit : ℚ) (status_code : ℕ)
    (error : List String) : TradesAction :=
  if status_code = 504 ∨ status_code = 520 then
    .retryAfter 60
  else if status_code ≠ 200 then
    handle_error_action
  else if error = ["EAPI:Rate limit exceeded"] then
    .retryAfter 5
  else if error ≠ [] then
    .fatalEnvelope error
  else
    .successAfter (1 / request_limit)

/-- How a `_historical_trades` run ends. -/
inductive FetchTerminal
  | completed
  | fatalHttp
  | fatalEnvelope (errs : List String)
  | outOfFuel
deriving DecidableEq

/-- The `while start_date < end_date` loop of `_historical_trades` (lines
155-176): the pages yielded, in order, and how the run ended.  `fuel` bounds
the number of iterations observed; `.outOfFuel` means the loop is still
running after `fuel` iterations (the source imposes no bound).  The next
cursor is `int(int(data['result']['last']) / 1_000_000_000)`; the float
division of the source is modelled as exact truncation. -/
def _historical_trades (server : ℤ → PageResponse) (request_limit : ℚ) :
    ℕ → ℤ → ℚ → List PageResponse × FetchTerminal
  | 0, _, _ => ([], .outOfFuel)
  | fuel + 1, cursor, end_date =>
    if (cursor : ℚ) < end_date then
      let r := server cursor
      match classify_trades_response request_limit r.status_code r.error with
      | .retryAfter _ => _historical_trades server request_limit fuel cursor end_date
      | .fatalHttpError => ([], .fatalHttp)
      | .fatalEnvelope errs => ([], .fatalEnvelope errs)
      | .successAfter _ =>
        let rest := _historical_trades server request_limit fuel
          (Int.tdiv r.last 1000000000) end_date
        (r :: rest.1, rest.2)
    else ([], .completed)

theorem historical_trades_fuel_zero (server : ℤ → PageResponse)
    (request_limit : ℚ) (cursor : ℤ) (end_date : ℚ) :
    _historical_trades server request_limit 0 cursor end_date
      = ([], .outOfFuel) := rfl

theorem historical_trades_fuel_succ (server : ℤ → PageResponse)
    (request_limit : ℚ) (fuel : ℕ) (cursor : ℤ) (end_date : ℚ) :
    _historical_trades server request_limit (fuel + 1) cursor end_date
      = if (cursor : ℚ) < end_date then
          let r := server cursor
          match classify_trades_response request_limit r.status_code r.error with
          | .retryAfter _ =>
            _historical_trades server request_limit fuel cursor end_date
          | .fatalHttpError => ([], .fatalHttp)
          | .fatalEnvelope errs => ([], .fatalEnvelope errs)
          | .successAfter _ =>
            let rest := _historical_trades server request_limit fuel
              (Int.tdiv r.last 1000000000) end_date
            (r :: rest.1, rest.2)
        else ([], .completed) := rfl

/-- The normalized trade record of `_trade_normalization` (lines 178-190). -/
structure TradeRec where
  timestamp : ℚ
  symbol : String
  id : Option String
  feed : String
  side : OrderSide
  amount : ℚ
  price : ℚ
deriving DecidableEq

/-- `_trade_normalization`: `feed` is the exchange id constant `self.id`. -/
def _trade_normalization (feed symbol : String) (t : RawTrade) : TradeRec :=
  { timestamp := t.time
    symbol := symbol
    id := none
    feed := feed
    side := if t.side = "s" then .SELL else .BUY
    amount := t.volume
    price := t.price }

/-- The `start`-driven branch of `trades_sync` (lines 127-136): each page of
`_historical_trades` is normalized and trades with `timestamp > end` are
dropped before the batch is yielded.  `_datetime_normalize` is the identity
on an epoch-second timestamp; the loop's first cursor is `int(start)`. -/
def trades_sync (server : ℤ → PageResponse) (request_limit : ℚ)
    (feed symbol : String) (fuel : ℕ) (start end_date : ℚ) :
    List (List TradeRec) × FetchTerminal :=
  let out := _historical_trades server request_limit fuel (truncInt start)
    end_date
  (out.1.map fun p =>
    (p.trades.map (_trade_normalization feed symbol)).filter
      fun d => decide (d.timestamp ≤ end_date),
   out.2)

/-- C2: response classification in the historical-trades retry loop follows
the source order — 504/520 sleeps 60s and retries (no attempt bound exists in
the loop); any other non-200 status is fatal with no retry; a 200 response
whose error list is exactly `['EAPI:Rate limit exceeded']` sleeps 5s and
retries; a 200 response with any other non-empty error list is fatal and
propagates the error list; a 200 response with an empty error list succeeds
after the `1 / request_limit` pacing delay. -/
theorem historical_trades_response_policy (request_limit : ℚ) (sc : ℕ)
    (err : List String) :
    ((sc = 504 ∨ sc = 520) →
      classify_trades_response request_limit sc err = .retryAfter 60)
    ∧ (sc ≠ 504 → sc ≠ 520 → sc ≠ 200 →
      classify_trades_response request_limit sc err = .fatalHttpError)
    ∧ (err = ["EAPI:Rate limit exceeded"] →
      classify_trades_response request_limit 200 err = .retryAfter 5)
    ∧ (err ≠ [] → err ≠ ["EAPI:Rate limit exceeded"] →
      classify_trades_response request_limit 200 err = .fatalEnvelope err)
    ∧ (err = [] →
      classify_trades_response request_limit 200 err
        = .successAfter (1 / request_limit)) := by
  refine ⟨fun h => ?_, fun h1 h2 h3 => ?_, fun h => ?_, fun h1 h2 => ?_,
    fun h => ?_⟩
  · rw [classify_trades_response, if_pos h]
  · rw [classify_trades_response, if_neg (by omega), if_pos h3]
    rfl
  · rw [classify_trades_response, if_neg (by omega),
      if_neg (by omega : ¬ (200 : ℕ) ≠ 200), if_pos h]
  · rw [classify_trades_response, if_neg (by omega),
      if_neg (by omega : ¬ (200 : ℕ) ≠ 200), if_neg h2, if_pos h1]
  · subst h
    rw [classify_trades_response, if_neg (by omega),
      if_neg (by omega : ¬ (200 : ℕ) ≠ 200), if_neg (by simp),
      if_neg (by simp)]

/-- Witness for C2: one concrete response per classification branch, with
`request_limit = 10`. -/
theorem historical_trades_response_policy_witness :
    classify_trades_response 10 504 [] = .retryAfter 60
    ∧ classify_trades_response 10 400 [] = .fatalHttpError
    ∧ classify_trades_response 10 200 ["EAPI:Rate limit exceeded"]
      = .retryAfter 5
    ∧ classify_trades_response 10 200 ["EGeneral:Invalid arguments"]
      = .fatalEnvelope ["EGeneral:Invalid arguments"]
    ∧ classify_trades_response 10 200 [] = .successAfter (1 / 10) :=
  ⟨(historical_trades_response_policy 10 504 []).1 (Or.inl rfl),
   (historical_trades_response_policy 10 400 []).2.1 (by omega) (by omega)
     (by omega),
   (historical_trades_response_policy 10 200
     ["EAPI:Rate limit exceeded"]).2.2.1 rfl,
   (historical_trades_response_policy 10 200
     ["EGeneral:Invalid arguments"]).2.2.2.1 (by simp) (by simp),
   (historical_trades_response_policy 10 200 []).2.2.2.2 rfl⟩

/-- A server page anchored at cursor `10` that honors the `since` cursor
(every trade timestamp is `≥ 10`) yet contains a trade at `10 < 10.5` and one
overshooting the window end. -/
def overshootServer : ℤ → PageResponse := fun _ =>
  { status_code := 200, error := []
    trades := [{ price := 976, volume := 1, time := 10, side := "s" },
               { price := 977, volume := 2, time := 25, side := "b" }]
    last := 25000000000 }

/-- The normalization of `overshootServer`'s first trade. -/
def earlyTrade : TradeRec :=
  { timestamp := 10, symbol := "ETH-GBP", id := none, feed := "KRAKEN",
    side := .SELL, amount := 1, price := 976 }

/-- The full run of `trades_sync` on `overshootServer` with `start = 10.5`,
`end = 20`: one page, whose batch keeps only the trade at `10` (the trade at
`25 > end` is filtered), then the advanced cursor `25 ≥ 20` ends the loop. -/
theorem overshoot_run :
    trades_sync overshootServer 1 "KRAKEN" "ETH-GBP" 2 (21/2) 20
      = ([[earlyTrade]], .completed) := by
  have hstart : truncInt (21/2) = 10 := by
    rw [truncInt_eq_floor _ (by norm_num)]
    norm_num
  simp only [trades_sync, hstart]
  decide

/-- C3 counterexample: with `start = 10.5` the `since` cursor is
`int(10.5) = 10`, and the emitted batch contains a trade whose timestamp `10`
is smaller than `start` — the code never filters the lower side, so
`start ≤ timestamp` fails even against a server that honors the cursor. -/
theorem trades_sync_emits_trade_before_start :
    (trades_sync overshootServer 1 "KRAKEN" "ETH-GBP" 2 (21/2) 20).1
      = [[earlyTrade]]
    ∧ earlyTrade.timestamp < 21/2 := by
  constructor
  · rw [overshoot_run]
  · norm_num [earlyTrade]

/-- C3 (amended): every trade emitted by the paginated fetch satisfies
`timestamp ≤ end`: each page's batch is filtered by `timestamp ≤ end` before
it is yielded.  The lower bound `start ≤ timestamp` is not enforced by the
code. -/
theorem trades_sync_timestamp_le_end (server : ℤ → PageResponse)
    (request_limit : ℚ) (feed symbol : String) (fuel : ℕ)
    (start end_date : ℚ) (batch : List TradeRec)
    (hb : batch ∈ (trades_sync server request_limit feed symbol fuel start
      end_date).1)
    (d : TradeRec) (hd : d ∈ batch) :
    d.timestamp ≤ end_date := by
  simp only [trades_sync, List.mem_map] at hb
  obtain ⟨p, hp, rfl⟩ := hb
  exact of_decide_eq_true (List.mem_filter.mp hd).2

/-- Witness for C3 on the `overshootServer` run. -/
theorem trades_sync_timestamp_le_end_witness :
    earlyTrade.timestamp ≤ 20 :=
  trades_sync_timestamp_le_end overshootServer 1 "KRAKEN" "ETH-GBP" 2 (21/2)
    20 [earlyTrade]
    (by rw [overshoot_run]; exact List.mem_singleton_self _)
    earlyTrade (List.mem_singleton_self _)

/-- The failing server for C4: every page is a 200/no-error response whose
`result.last` is `10_000_000_000`, so the derived next cursor is always
`10`. -/
def stuckServer : ℤ → PageResponse := fun _ =>
  { status_code := 200, error := [], trades := [], last := 10000000000 }

/-- C4: a server that never advances the cursor causes an infinite loop.
With the cursor at `10 < 20 = end`, after any number of iterations the
`_historical_trades` loop is still running: no fatal protocol violation is
ever raised, contradicting the claimed guard. -/
theorem historical_trades_stuck_cursor_loops (fuel : ℕ) :
    (_historical_trades stuckServer 1 fuel 10 20).2 = .outOfFuel := by
  induction fuel with
  | zero => rfl
  | succ n ih =>
      rw [historical_trades_fuel_succ,
        if_pos (show ((10:ℤ):ℚ) < 20 by decide)]
      show (_historical_trades stuckServer 1 n 10 20).2 = .outOfFuel
      exact ih

/-! ## Private batch operations: `balances_sync`, `trade_history_sync`,
`ledger_sync` (kraken_rest.py lines 193-336) -/

/-- The static currency-spelling table of `balances_sync` (lines 197-207). -/
def cur_map : List (String × String) :=
  [("XXBT", "BTC"), ("XXDG", "DOGE"), ("XXLM", "XLM"), ("XXMR", "XMR"),
   ("XXRP", "XRP"), ("ZUSD", "USD"), ("ZCAD", "CAD"), ("ZGBP", "GBP"),
   ("ZJPY", "JPY")]

/-- `cur_map.get(currency, currency)`: table lookup with the raw code as the
fallback. -/
def cur_map_get (currency : String) : String :=
  (cur_map.lookup currency).getD currency

/-- A balances entry value: `available` and `total` are both the raw value. -/
structure Balance where
  available : ℚ
  total : ℚ
deriving DecidableEq

/-- The success path of `balances_sync` (lines 208-214): each result key goes
through the static `cur_map` lookup only. -/
def balances_result (result : List (String × ℚ)) : List (String × Balance) :=
  result.map fun cv => (cur_map_get cv.1, { available := cv.2, total := cv.2 })

/-- Python `s.split('-')`, written structurally on the character list. -/
def splitDashAux : List Char → List Char → List String
  | [], acc => [acc.reverse.asString]
  | c :: cs, acc =>
    if c = '-' then acc.reverse.asString :: splitDashAux cs []
    else splitDashAux cs (c :: acc)

def pySplitDash (s : String) : List String := splitDashAux s.data []

/-- The upstream trade-history entry fields read by `trade_history_sync`. -/
structure RawHistTrade where
  ordertxid : String
  pair : String
  price : ℚ
  vol : ℚ
  fee : ℚ
  time : ℚ
  type : String
deriving DecidableEq

/-- The normalized trade-history record (lines 286-297; the `raw` echo field
is not modelled).  `fee_currency` is `Option`al: `none` models the
`IndexError` of `split('-')[1]` on a separator-free symbol. -/
structure HistTradeRec where
  order_id : String
  trade_id : String
  pair : String
  price : ℚ
  amount : ℚ
  timestamp : ℚ
  side : OrderSide
  fee_currency : Option String
  fee_amount : ℚ
deriving DecidableEq

/-- One iteration of the `trade_history_sync` result loop (lines 280-297):
`none` when the optional `symbol` filter drops the trade.  The raw
`trade['pair']` goes through `_convert_private_sym` and then the abstracted
`exchange_symbol_to_std_symbol`. -/
def trade_history_entry (e2std : String → String) (symFilter : Option String)
    (trade_id : String) (t : RawHistTrade) : Option HistTradeRec :=
  let sym := _convert_private_sym t.pair
  let std_sym := e2std sym
  match symFilter with
  | some symbol =>
    if e2std sym ≠ symbol then none
    else some
      { order_id := t.ordertxid, trade_id := trade_id, pair := std_sym,
        price := t.price, amount := t.vol, timestamp := t.time,
        side := if t.type = "sell" then .SELL else .BUY,
        fee_currency := (pySplitDash symbol).get? 1, fee_amount := t.fee }
  | none =>
    some
      { order_id := t.ordertxid, trade_id := trade_id, pair := std_sym,
        price := t.price, amount := t.vol, timestamp := t.time,
        side := if t.type = "sell" then .SELL else .BUY,
        fee_currency := (pySplitDash std_sym).get? 1, fee_amount := t.fee }

/-- The upstream ledger entry fields read by `ledger_sync`. -/
structure RawLedger where
  refid : String
  type : String
  subtype : String
  asset : String
  aclass : String
  amount : ℚ
  balance : ℚ
  time : ℚ
  fee : ℚ
deriving DecidableEq

/-- The normalized ledger record (lines 322-335; the `raw` echo field is not
modelled). -/
structure LedgerRec where
  ref_id : String
  ledger_id : String
  type : String
  sub_type : String
  asset : String
  asset_class : String
  amount : ℚ
  balance : ℚ
  timestamp : ℚ
  fee_currency : String
  fee_amount : ℚ
deriving DecidableEq

/-- One iteration of the `ledger_sync` result loop (lines 319-335): the raw
`ledger['asset']` goes through `_convert_private_sym`, and the converted code
is also the fee currency. -/
def ledger_entry (ledger_id : String) (l : RawLedger) : LedgerRec :=
  let sym := _convert_private_sym l.asset
  { ref_id := l.refid, ledger_id := ledger_id, type := l.type,
    sub_type := l.subtype, asset := sym, asset_class := l.aclass,
    amount := l.amount, balance := l.balance, timestamp := l.time,
    fee_currency := sym, fee_amount := l.fee }

/-- C9 counterexample: the balances key `"XETH"` (not in `cur_map`) is
returned untouched by `balances_sync`, while the private symbol-code
transform maps it to `"ETH"`: the transform is not applied to balances
payloads. -/
theorem balances_skips_private_symbol_transform :
    balances_result [("XETH", 1)]
      = [("XETH", { available := 1, total := 1 })]
    ∧ _convert_private_sym "XETH" = "ETH"
    ∧ "XETH" ≠ "ETH" := by
  decide

/-- C9 (amended): the private symbol-code transform is applied to the symbol
codes embedded in trade-history payloads (`trade['pair']`) and in ledger
payloads (`ledger['asset']`, which also becomes the fee currency), but not to
balances payloads, whose keys go through the static `cur_map` lookup only. -/
theorem private_symbol_transform_usage (e2std : String → String)
    (symFilter : Option String) (trade_id : String) (t : RawHistTrade)
    (r : HistTradeRec)
    (h : trade_history_entry e2std symFilter trade_id t = some r)
    (ledger_id : String) (l : RawLedger) (result : List (String × ℚ)) :
    r.pair = e2std (_convert_private_sym t.pair)
    ∧ (ledger_entry ledger_id l).asset = _convert_private_sym l.asset
    ∧ (ledger_entry ledger_id l).fee_currency = _convert_private_sym l.asset
    ∧ (balances_result result).map Prod.fst
      = result.map fun cv => cur_map_get cv.1 := by
  refine ⟨?_, rfl, rfl, by simp [balances_result]⟩
  cases symFilter with
  | none =>
    simp only [trade_history_entry] at h
    cases h
    rfl
  | some s =>
    simp only [trade_history_entry] at h
    by_cases hc : e2std (_convert_private_sym t.pair) ≠ s
    · rw [if_pos hc] at h
      cases h
    · rw [if_neg hc] at h
      cases h
      rfl

/-- A sample trade-history entry with the wire pair `"XXBTZUSD"`. -/
def sampleHistTrade : RawHistTrade :=
  { ordertxid := "OQ1", pair := "XXBTZUSD", price := 30010, vol := 1, fee := 1,
    time := 100, type := "sell" }

/-- The record `trade_history_entry` produces for `sampleHistTrade` when
every exchange symbol standardizes to `"BTC-USD"`. -/
def sampleHistRec : HistTradeRec :=
  { order_id := "OQ1", trade_id := "T1", pair := "BTC-USD", price := 30010,
    amount := 1, timestamp := 100, side := .SELL,
    fee_currency := some "USD", fee_amount := 1 }

/-- A sample ledger entry with the wire asset `"XETH"`. -/
def sampleLedger : RawLedger :=
  { refid := "R1", type := "deposit", subtype := "", asset := "XETH",
    aclass := "currency", amount := 2, balance := 2, time := 100, fee := 0 }

/-- Witness for C9 at concrete trade-history, ledger and balances inputs. -/
theorem private_symbol_transform_usage_witness :
    sampleHistRec.pair
      = (fun _ => "BTC-USD") (_convert_private_sym sampleHistTrade.pair)
    ∧ (ledger_entry "L1" sampleLedger).asset
      = _convert_private_sym sampleLedger.asset
    ∧ (ledger_entry "L1" sampleLedger).fee_currency
      = _convert_private_sym sampleLedger.asset
    ∧ (balances_result [("XXBT", 5)]).map Prod.fst
      = [("XXBT", (5:ℚ))].map fun cv => cur_map_get cv.1 :=
  private_symbol_transform_usage (fun _ => "BTC-USD") none "T1"
    sampleHistTrade sampleHistRec (by decide) "L1" sampleLedger [("XXBT", 5)]

/-! ## Facade operations returning `None` on an empty result mapping:
`ticker_sync`, `l2_book_sync`, `order_status_sync`
(kraken_rest.py lines 100-125 and 227-233) -/

/-- The exchange's `{ "error": [...], "result": ... }` JSON envelope. -/
structure Envelope (α : Type) where
  error : List String
  result : α

/-- The per-pair ticker payload fields read: `val['b'][0]`, `val['a'][0]`. -/
structure TickerVal where
  b0 : ℚ
  a0 : ℚ
deriving DecidableEq

/-- The normalized ticker record of lines 106-110. -/
structure TickerRec where
  symbol : String
  feed : String
  bid : ℚ
  ask : ℚ
deriving DecidableEq

/-- `ticker_sync` after `_post_public` returns (lines 104-110): the
`for ... in data.items(): return` loop yields a record for the first entry of
the result mapping; an empty mapping falls off the loop and the method
returns `None`. -/
def ticker_sync (feed symbol : String)
    (env : Envelope (List (String × TickerVal))) : Option TickerRec :=
  match env.result with
  | [] => none
  | (_, val) :: _ =>
    some { symbol := symbol, feed := feed, bid := val.b0, ask := val.a0 }

/-- The per-pair depth payload: bid and ask levels as price-size pairs. -/
structure BookVal where
  bids : List (ℚ × ℚ)
  asks : List (ℚ × ℚ)
deriving DecidableEq

/-- The book snapshot of lines 116-125; the price-keyed sorted-dict is kept
as the underlying level list (its construction is orthogonal to the
empty-result path). -/
structure BookRec where
  bid : List (ℚ × ℚ)
  ask : List (ℚ × ℚ)
deriving DecidableEq

/-- `l2_book_sync` after `_post_public` returns (lines 115-125): same
first-entry loop shape as `ticker_sync`. -/
def l2_book_sync (env : Envelope (List (String × BookVal))) : Option BookRec :=
  match env.result with
  | [] => none
  | (_, val) :: _ => some { bid := val.bids, ask := val.asks }

/-- A private call's outcome: the raw envelope echoed back on a non-empty
error list, or the method's value. -/
inductive PrivResult (α : Type)
  | errorEnvelope (errs : List String)
  | ok (a : α)

/-- `order_status_sync` (lines 227-233): a non-empty envelope error list is
returned as-is; otherwise the first entry of the result mapping is normalized
(`.ok (some ...)`, where the inner `Option` is `_order_status`'s
unrecognized-status error), and an empty result mapping falls off the loop:
the method returns `None` (`.ok none`). -/
def order_status_sync (e2std : String → String)
    (env : Envelope (List (String × RawOrder))) :
    PrivResult (Option (Option OrderStatusRec)) :=
  if env.error.length ≠ 0 then .errorEnvelope env.error
  else
    match env.result with
    | [] => .ok none
    | (oid, o) :: _ => .ok (some (_order_status e2std oid o))

/-- C10: on a successful envelope (empty error list) whose result mapping is
empty, `ticker_sync` and `l2_book_sync` return `None`, and
`order_status_sync` returns `None` — none of the three raises or returns an
empty record. -/
theorem empty_result_returns_none (feed symbol : String)
    (e2std : String → String) (envT : Envelope (List (String × TickerVal)))
    (envB : Envelope (List (String × BookVal)))
    (envO : Envelope (List (String × RawOrder)))
    (hT : envT.result = []) (hB : envB.result = [])
    (hOe : envO.error = []) (hO : envO.result = []) :
    ticker_sync feed symbol envT = none
    ∧ l2_book_sync envB = none
    ∧ order_status_sync e2std envO = .ok none := by
  refine ⟨?_, ?_, ?_⟩
  · simp only [ticker_sync, hT]
  · simp only [l2_book_sync, hB]
  · simp only [order_status_sync, hOe, hO]
    rfl

/-- Witness for C10 at concrete empty-result envelopes. -/
theorem empty_result_returns_none_witness :
    ticker_sync "KRAKEN" "BTC-USD" { error := [], result := [] } = none
    ∧ l2_book_sync { error := [], result := [] } = none
    ∧ order_status_sync id { error := [], result := [] } = .ok none :=
  empty_result_returns_none "KRAKEN" "BTC-USD" id
    { error := [], result := [] } { error := [], result := [] }
    { error := [], result := [] } rfl rfl rfl rfl
